import Mathlib

/-!
Verification of the OpenPilot Autotune module
(src/flight/modules/Autotune/autotune.c) against its natural-language
specification.

The module is a periodic task.  Each loop iteration (one tick) reads the
flight status, and when the flight mode is AUTOTUNE it reads the current
StabilizationDesired, StabilizationSettings, ManualControlSettings,
ManualControlCommand and RelayTuningSettings records, rebuilds the desired
stabilization record, runs one step of a six-phase state machine
(AT_INIT, AT_START, AT_ROLL, AT_PITCH, AT_FINISHED, AT_SET) and writes
StabilizationDesired back.  The AT_SET phase calls
update_stabilization_settings, which derives new PID gains from the
measured relay-tuning period and gain and, depending on the configured
behavior, publishes or durably saves the new StabilizationSettings.

The embedding below models one tick as a pure function from the machine
state (phase and lastUpdateTime) and a snapshot of all records read during
that tick to a result holding the next machine state together with the
records written during that tick.  Times are naturals (FreeRTOS ticks,
1 ms granularity at the configured tick rate); all control values and
gains are real numbers standing for the C floats.
-/

namespace Autotune

/-- Flight mode values of FlightStatus relevant to the module; the module
only distinguishes AUTOTUNE from everything else. -/
inductive FlightMode
  | MANUAL
  | STABILIZED1
  | STABILIZED2
  | STABILIZED3
  | AUTOTUNE
  | ALTITUDEHOLD
  | POSITIONHOLD
  deriving DecidableEq

/-- Armed field values of FlightStatus. -/
inductive ArmedOption
  | DISARMED
  | ARMING
  | ARMED
  deriving DecidableEq

/-- Per-axis stabilization mode values of StabilizationDesired. -/
inductive StabMode
  | NONE
  | RATE
  | ATTITUDE
  | AXISLOCK
  | WEAKLEVELING
  | VIRTUALBAR
  | RELAYRATE
  | RELAYATTITUDE
  deriving DecidableEq

/-- Mode field of RelayTuningSettings: which control loop is excited. -/
inductive RelayTuningMode
  | RATE
  | ATTITUDE
  deriving DecidableEq

/-- Behavior field of RelayTuningSettings: how far to carry the result. -/
inductive RelayTuningBehavior
  | MEASURE
  | COMPUTE
  | SAVE
  deriving DecidableEq

/-- Snapshot of the FlightStatus record fields read by the module. -/
structure FlightStatusData where
  Armed : ArmedOption
  FlightMode : Autotune.FlightMode

/-- Snapshot of the ManualControlCommand record fields read by the module. -/
structure ManualControlCommandData where
  Roll : ℝ
  Pitch : ℝ
  Yaw : ℝ
  Throttle : ℝ

/-- The StabilizationDesired record: per-axis mode and command value plus
throttle passthrough.  The C StabilizationMode array is modelled with one
field per axis. -/
structure StabilizationDesiredData where
  RollMode : StabMode
  PitchMode : StabMode
  YawMode : StabMode
  Roll : ℝ
  Pitch : ℝ
  Yaw : ℝ
  Throttle : ℝ

/-- A rate-loop PID gain block of StabilizationSettings. -/
structure RatePID where
  Kp : ℝ
  Ki : ℝ
  Kd : ℝ
  ILimit : ℝ

/-- An attitude-loop PI gain block of StabilizationSettings. -/
structure AttPI where
  Kp : ℝ
  Ki : ℝ
  ILimit : ℝ

/-- The StabilizationSettings record fields used by the module. -/
structure StabilizationSettingsData where
  RollRatePID : RatePID
  PitchRatePID : RatePID
  RollPI : AttPI
  PitchPI : AttPI
  ManualRateRoll : ℝ
  ManualRatePitch : ℝ
  ManualRateYaw : ℝ
  RollMax : ℝ
  PitchMax : ℝ

/-- The RelayTuningSettings record. -/
structure RelayTuningSettingsData where
  Mode : RelayTuningMode
  Behavior : RelayTuningBehavior

/-- The RelayTuning measurement record: oscillation period (ms) and gain
per axis, index 0 = roll, index 1 = pitch, as in the C Period and Gain
arrays. -/
structure RelayTuningData where
  Period : Fin 2 → ℝ
  Gain : Fin 2 → ℝ

/-- The phase enum AUTOTUNE_STATE of autotune.c. -/
inductive AUTOTUNE_STATE
  | AT_INIT
  | AT_START
  | AT_ROLL
  | AT_PITCH
  | AT_FINISHED
  | AT_SET
  deriving DecidableEq

open AUTOTUNE_STATE

/-- PREPARE_TIME constant of AutotuneTask (ms). -/
def PREPARE_TIME : Nat := 2000

/-- MEAURE_TIME constant of AutotuneTask (ms); the misspelling is the
name used in the source. -/
def MEAURE_TIME : Nat := 30000

/-- The ultimate angular frequency computed in update_stabilization_settings:
wu = 1000 * 2 * M_PI / period. -/
noncomputable def ultimate_freq (period : ℝ) : ℝ :=
  1000 * 2 * Real.pi / period

/-- The four gains derived for one axis. -/
structure AxisGains where
  kp : ℝ
  ki : ℝ
  kp2 : ℝ
  ki2 : ℝ

/-- The per-axis gain computation of the loop body of
update_stabilization_settings.  The loop runs the very same formula for
i = 0 (roll) and i = 1 (pitch): gain_ratio_r and zero_ratio_r are the
inner (rate) loop ratios, gain_ratio_p and zero_ratio_p the outer
(position / attitude) loop ratios, and all four are used for both axes. -/
noncomputable def axis_gains (period gain : ℝ) : AxisGains :=
  let gain_ratio_r : ℝ := 1 / 3
  let zero_ratio_r : ℝ := 1 / 3
  let gain_ratio_p : ℝ := 1 / 5
  let zero_ratio_p : ℝ := 1 / 5
  let wu : ℝ := ultimate_freq period
  let wc : ℝ := wu * gain_ratio_r
  let zc : ℝ := wc * zero_ratio_r
  let kpu : ℝ := 4 / Real.pi / gain
  let kp : ℝ := kpu * gain_ratio_r
  let ki : ℝ := zc * kp
  let wc2 : ℝ := wc * gain_ratio_p
  let kp2 : ℝ := wc2
  let ki2 : ℝ := wc2 * zero_ratio_p * kp2
  ⟨kp, ki, kp2, ki2⟩

/-- Modelled from the spec: the math-engine formulas of specification
section 4.3, with the four ratio constants gain_ratio_inner (gri),
zero_ratio_inner (zri), gain_ratio_outer (gro) and zero_ratio_outer (zro)
taken as explicit per-axis parameters, exactly as the spec words them.
Used only to compare the source computation against the claimed per-axis
constants. -/
noncomputable def spec_axis_gains (gri zri gro zro period gain : ℝ) : AxisGains :=
  let wu : ℝ := 1000 * (2 * Real.pi) / period
  let wc : ℝ := wu * gri
  let zc : ℝ := wc * zri
  let kpu : ℝ := 4 / Real.pi / gain
  let kp : ℝ := kpu * gri
  let ki : ℝ := zc * kp
  let wc2 : ℝ := wc * gro
  let kp2 : ℝ := wc2
  let ki2 : ℝ := wc2 * zro * kp2
  ⟨kp, ki, kp2, ki2⟩

/-- The local stabSettings record after the for-loop of
update_stabilization_settings: roll gains from axis 0, pitch gains from
axis 1, every other field untouched. -/
noncomputable def tuned_settings (relayTuning : RelayTuningData)
    (stabSettings : StabilizationSettingsData) : StabilizationSettingsData :=
  let g0 := axis_gains (relayTuning.Period 0) (relayTuning.Gain 0)
  let g1 := axis_gains (relayTuning.Period 1) (relayTuning.Gain 1)
  { stabSettings with
    RollRatePID := { stabSettings.RollRatePID with Kp := g0.kp, Ki := g0.ki }
    RollPI := { stabSettings.RollPI with Kp := g0.kp2, Ki := g0.ki2 }
    PitchRatePID := { stabSettings.PitchRatePID with Kp := g1.kp, Ki := g1.ki }
    PitchPI := { stabSettings.PitchPI with Kp := g1.kp2, Ki := g1.ki2 } }

/-- The externally visible effects of one call to
update_stabilization_settings: the StabilizationSettings record published
by StabilizationSettingsSet, if any, and whether UAVObjSave was called. -/
structure SettingsEffects where
  stabSettingsWrite : Option StabilizationSettingsData
  saveRequested : Bool

/-- update_stabilization_settings: compute the tuned settings from the
RelayTuning measurement, then publish or save them according to the
Behavior switch.  MEASURE publishes nothing, COMPUTE publishes the record,
SAVE publishes it and requests the durable save. -/
noncomputable def update_stabilization_settings (relayTuning : RelayTuningData)
    (relaySettings : RelayTuningSettingsData)
    (stabSettings : StabilizationSettingsData) : SettingsEffects :=
  let s := tuned_settings relayTuning stabSettings
  match relaySettings.Behavior with
  | RelayTuningBehavior.MEASURE => ⟨none, false⟩
  | RelayTuningBehavior.COMPUTE => ⟨some s, false⟩
  | RelayTuningBehavior.SAVE => ⟨some s, true⟩

/-- Snapshot of all records read during one tick of AutotuneTask, plus the
tick-counter value returned by xTaskGetTickCount on that tick. -/
structure TickInput where
  now : Nat
  flightStatus : FlightStatusData
  stabDesiredPrev : StabilizationDesiredData
  stabSettings : StabilizationSettingsData
  manualControl : ManualControlCommandData
  relaySettings : RelayTuningSettingsData
  relayTuning : RelayTuningData

/-- The result of one tick of AutotuneTask: the next phase, the next
lastUpdateTime, and the records written during the tick.  stabDesiredWrite
is the record passed to StabilizationDesiredSet, or none when the tick was
cut short by the flight-mode gate. -/
structure TickResult where
  state : AUTOTUNE_STATE
  lastUpdateTime : Nat
  stabDesiredWrite : Option StabilizationDesiredData
  stabSettingsWrite : Option StabilizationSettingsData
  saveRequested : Bool

/-- The StabilizationDesired record rebuilt at the top of every
gate-passing tick (autotune.c lines 168-186), before the phase switch:
roll and pitch get RATE or ATTITUDE mode and scaled stick values depending
on RelayTuningSettings.Mode, yaw is forced to RATE with the manual-rate
passthrough, and throttle is passed through. -/
noncomputable def baseStabDesired (inp : TickInput) : StabilizationDesiredData :=
  let rate := inp.relaySettings.Mode = RelayTuningMode.RATE
  let d1 :=
    if rate then
      { inp.stabDesiredPrev with
        RollMode := StabMode.RATE
        PitchMode := StabMode.RATE
        Roll := inp.manualControl.Roll * inp.stabSettings.ManualRateRoll
        Pitch := inp.manualControl.Pitch * inp.stabSettings.ManualRatePitch }
    else
      { inp.stabDesiredPrev with
        RollMode := StabMode.ATTITUDE
        PitchMode := StabMode.ATTITUDE
        Roll := inp.manualControl.Roll * inp.stabSettings.RollMax
        Pitch := inp.manualControl.Pitch * inp.stabSettings.PitchMax }
  { d1 with
    YawMode := StabMode.RATE
    Yaw := inp.manualControl.Yaw * inp.stabSettings.ManualRateYaw
    Throttle := inp.manualControl.Throttle }

/-- The phase switch of AutotuneTask (autotune.c lines 188-253), acting on
the freshly rebuilt stabDesired record.  Every branch ends with the
StabilizationDesiredSet call, modelled by stabDesiredWrite = some.  Only
AT_SET calls update_stabilization_settings. -/
noncomputable def phaseStep : AUTOTUNE_STATE → Nat → TickInput →
    StabilizationDesiredData → TickResult
  | AT_INIT, _, inp, stabDesired =>
    if inp.flightStatus.Armed = ArmedOption.ARMED ∧ stabDesired.Throttle > 0 then
      ⟨AT_START, inp.now, some stabDesired, none, false⟩
    else
      ⟨AT_INIT, inp.now, some stabDesired, none, false⟩
  | AT_START, lastUpdateTime, inp, stabDesired =>
    let diffTime := inp.now - lastUpdateTime
    if diffTime > PREPARE_TIME then
      ⟨AT_ROLL, inp.now, some stabDesired, none, false⟩
    else
      ⟨AT_START, lastUpdateTime, some stabDesired, none, false⟩
  | AT_ROLL, lastUpdateTime, inp, stabDesired =>
    let diffTime := inp.now - lastUpdateTime
    let rate := inp.relaySettings.Mode = RelayTuningMode.RATE
    let stabDesired2 := { stabDesired with
      RollMode := if rate then StabMode.RELAYRATE else StabMode.RELAYATTITUDE }
    if diffTime > MEAURE_TIME then
      ⟨AT_PITCH, inp.now, some stabDesired2, none, false⟩
    else
      ⟨AT_ROLL, lastUpdateTime, some stabDesired2, none, false⟩
  | AT_PITCH, lastUpdateTime, inp, stabDesired =>
    let diffTime := inp.now - lastUpdateTime
    let rate := inp.relaySettings.Mode = RelayTuningMode.RATE
    let stabDesired2 := { stabDesired with
      PitchMode := if rate then StabMode.RELAYRATE else StabMode.RELAYATTITUDE }
    if diffTime > MEAURE_TIME then
      ⟨AT_FINISHED, inp.now, some stabDesired2, none, false⟩
    else
      ⟨AT_PITCH, lastUpdateTime, some stabDesired2, none, false⟩
  | AT_FINISHED, lastUpdateTime, inp, stabDesired =>
    if inp.flightStatus.Armed = ArmedOption.DISARMED ∧ stabDesired.Throttle ≤ 0 then
      ⟨AT_SET, lastUpdateTime, some stabDesired, none, false⟩
    else
      ⟨AT_FINISHED, lastUpdateTime, some stabDesired, none, false⟩
  | AT_SET, lastUpdateTime, inp, stabDesired =>
    let eff := update_stabilization_settings inp.relayTuning inp.relaySettings
      inp.stabSettings
    ⟨AT_INIT, lastUpdateTime, some stabDesired, eff.stabSettingsWrite, eff.saveRequested⟩

/-- One tick of the AutotuneTask loop body.  The flight-mode gate
(autotune.c lines 147-151) runs first: when the flight mode is not
AUTOTUNE the phase is forced to AT_INIT and the tick ends immediately,
writing nothing.  Otherwise the desired record is rebuilt and the phase
switch runs, ending in the StabilizationDesiredSet call. -/
noncomputable def autotuneTick (state : AUTOTUNE_STATE) (lastUpdateTime : Nat)
    (inp : TickInput) : TickResult :=
  if inp.flightStatus.FlightMode ≠ FlightMode.AUTOTUNE then
    ⟨AT_INIT, lastUpdateTime, none, none, false⟩
  else
    phaseStep state lastUpdateTime inp (baseStabDesired inp)

/-- The forward successor along the phase cycle
AT_INIT, AT_START, AT_ROLL, AT_PITCH, AT_FINISHED, AT_SET, AT_INIT. -/
def nextPhase : AUTOTUNE_STATE → AUTOTUNE_STATE
  | AT_INIT => AT_START
  | AT_START => AT_ROLL
  | AT_ROLL => AT_PITCH
  | AT_PITCH => AT_FINISHED
  | AT_FINISHED => AT_SET
  | AT_SET => AT_INIT

/-- A StabilizationDesired record with no axis in a relay mode. -/
def noRelayAxis (d : StabilizationDesiredData) : Prop :=
  d.RollMode ≠ StabMode.RELAYRATE ∧ d.RollMode ≠ StabMode.RELAYATTITUDE ∧
  d.PitchMode ≠ StabMode.RELAYRATE ∧ d.PitchMode ≠ StabMode.RELAYATTITUDE ∧
  d.YawMode ≠ StabMode.RELAYRATE ∧ d.YawMode ≠ StabMode.RELAYATTITUDE

/-- UAVObject access events of one tick, in program order: the Get calls
of the loop body and of update_stabilization_settings, the Set calls, and
the UAVObjSave call. -/
inductive Ev
  | readFlightStatus
  | readStabDesired
  | readStabSettings
  | readManualSettings
  | readManualControl
  | readRelaySettings
  | readRelayTuning
  | writeStabSettings
  | saveStabSettings
  | writeStabDesired
  deriving DecidableEq

/-- Whether an event is a Get call. -/
def Ev.isRead : Ev → Bool
  | Ev.readFlightStatus => true
  | Ev.readStabDesired => true
  | Ev.readStabSettings => true
  | Ev.readManualSettings => true
  | Ev.readManualControl => true
  | Ev.readRelaySettings => true
  | Ev.readRelayTuning => true
  | Ev.writeStabSettings => false
  | Ev.saveStabSettings => false
  | Ev.writeStabDesired => false

/-- The access events of one call to update_stabilization_settings, in
program order: three Get calls, then the Behavior switch with its Set and
Save calls. -/
def commitTrace (behavior : RelayTuningBehavior) : List Ev :=
  [Ev.readRelayTuning, Ev.readRelaySettings, Ev.readStabSettings] ++
    match behavior with
    | RelayTuningBehavior.MEASURE => []
    | RelayTuningBehavior.COMPUTE => [Ev.writeStabSettings]
    | RelayTuningBehavior.SAVE => [Ev.writeStabSettings, Ev.saveStabSettings]

/-- The UAVObject access events of one tick of AutotuneTask, in program
order.  A tick cut short by the flight-mode gate performs only the
FlightStatusGet; a gate-passing tick performs the five further Get calls,
the AT_SET accesses when in that phase, and ends with the single
StabilizationDesiredSet. -/
def tickTrace (state : AUTOTUNE_STATE) (inp : TickInput) : List Ev :=
  if inp.flightStatus.FlightMode ≠ FlightMode.AUTOTUNE then
    [Ev.readFlightStatus]
  else
    [Ev.readFlightStatus, Ev.readStabDesired, Ev.readStabSettings,
     Ev.readManualSettings, Ev.readManualControl, Ev.readRelaySettings] ++
    (if state = AT_SET then commitTrace inp.relaySettings.Behavior else []) ++
    [Ev.writeStabDesired]

/-- Every read of a trace happens strictly before every
StabilizationDesired write of that trace. -/
def writeAfterAllReads (t : List Ev) : Prop :=
  ∀ i j : Fin t.length, t.get i = Ev.writeStabDesired →
    (t.get j).isRead = true → (j : Nat) < (i : Nat)

/-- An all-zero rate-PID block, used for concrete test records. -/
def zeroRatePID : RatePID := ⟨0, 0, 0, 0⟩

/-- An all-zero attitude-PI block, used for concrete test records. -/
def zeroAttPI : AttPI := ⟨0, 0, 0⟩

/-- A concrete StabilizationSettings record for tests. -/
def zeroStabSettings : StabilizationSettingsData :=
  { RollRatePID := zeroRatePID
    PitchRatePID := zeroRatePID
    RollPI := zeroAttPI
    PitchPI := zeroAttPI
    ManualRateRoll := 0
    ManualRatePitch := 0
    ManualRateYaw := 0
    RollMax := 0
    PitchMax := 0 }

/-- A concrete StabilizationDesired record for tests. -/
def zeroDesired : StabilizationDesiredData :=
  ⟨StabMode.NONE, StabMode.NONE, StabMode.NONE, 0, 0, 0, 0⟩

/-- A concrete RelayTuning measurement with zero period and gain on both
axes: the degenerate input on which the gain formulas divide by zero. -/
def zeroRelayTuning : RelayTuningData := ⟨fun _ => 0, fun _ => 0⟩

/-- A concrete tick-input builder for tests: tick counter, armed state,
flight mode, throttle stick and relay behavior vary, everything else is a
fixed zero record. -/
def mkInput (now : Nat) (armed : ArmedOption) (mode : FlightMode)
    (throttle : ℝ) (behavior : RelayTuningBehavior) : TickInput :=
  { now := now
    flightStatus := ⟨armed, mode⟩
    stabDesiredPrev := zeroDesired
    stabSettings := zeroStabSettings
    manualControl := ⟨0, 0, 0, throttle⟩
    relaySettings := ⟨RelayTuningMode.RATE, behavior⟩
    relayTuning := zeroRelayTuning }

/-- Claim C5: when COMMIT runs, behavior MEASURE leaves StabilizationSettings
unpublished and requests no durable save; COMPUTE publishes the in-memory
record but requests no save; SAVE publishes the record and requests the
durable save. -/
theorem C5_behavior_policy (rt : RelayTuningData) (rs : RelayTuningSettingsData)
    (ss : StabilizationSettingsData) :
    (rs.Behavior = RelayTuningBehavior.MEASURE →
      (update_stabilization_settings rt rs ss).stabSettingsWrite = none ∧
      (update_stabilization_settings rt rs ss).saveRequested = false) ∧
    (rs.Behavior = RelayTuningBehavior.COMPUTE →
      (update_stabilization_settings rt rs ss).stabSettingsWrite =
        some (tuned_settings rt ss) ∧
      (update_stabilization_settings rt rs ss).saveRequested = false) ∧
    (rs.Behavior = RelayTuningBehavior.SAVE →
      (update_stabilization_settings rt rs ss).stabSettingsWrite =
        some (tuned_settings rt ss) ∧
      (update_stabilization_settings rt rs ss).saveRequested = true) := by
  rcases rs with ⟨m, b⟩
  cases b <;> simp [update_stabilization_settings]

/-- Witness for C5_behavior_policy at a concrete SAVE configuration. -/
theorem C5_behavior_policy_w :
    (update_stabilization_settings zeroRelayTuning
      ⟨RelayTuningMode.RATE, RelayTuningBehavior.SAVE⟩ zeroStabSettings).stabSettingsWrite =
      some (tuned_settings zeroRelayTuning zeroStabSettings) ∧
    (update_stabilization_settings zeroRelayTuning
      ⟨RelayTuningMode.RATE, RelayTuningBehavior.SAVE⟩ zeroStabSettings).saveRequested = true :=
  (C5_behavior_policy zeroRelayTuning
    ⟨RelayTuningMode.RATE, RelayTuningBehavior.SAVE⟩ zeroStabSettings).2.2 rfl

/-- Claim C3 counterexample: the source computes the pitch-axis inner-loop
proportional gain with ratio one third, not one fifth: at the concrete
measurement period 500 ms and gain 0.3 the source value differs from the
value the spec formulas give with inner ratios of one fifth. -/
theorem C3_counterexample :
    (axis_gains 500 (3 / 10)).kp ≠
      (spec_axis_gains (1 / 5) (1 / 5) (1 / 5) (1 / 5) 500 (3 / 10)).kp := by
  simp only [axis_gains, spec_axis_gains, ultimate_freq]
  intro h
  have hπ : Real.pi ≠ 0 := Real.pi_ne_zero
  field_simp at h
  norm_num at h

/-- Claim C3 amended: both axes are tuned with the very same constants:
the inner (rate) loop uses gain ratio and zero ratio one third and the
outer (attitude) loop uses gain ratio and zero ratio one fifth, for roll
and pitch alike; the r and p suffixes in the source name the rate and
position loops, not the roll and pitch axes. -/
theorem C3_amended_ratios (p g : ℝ) (rt : RelayTuningData)
    (ss : StabilizationSettingsData) :
    axis_gains p g = spec_axis_gains (1 / 3) (1 / 3) (1 / 5) (1 / 5) p g ∧
    (tuned_settings rt ss).RollRatePID.Kp = (axis_gains (rt.Period 0) (rt.Gain 0)).kp ∧
    (tuned_settings rt ss).RollRatePID.Ki = (axis_gains (rt.Period 0) (rt.Gain 0)).ki ∧
    (tuned_settings rt ss).RollPI.Kp = (axis_gains (rt.Period 0) (rt.Gain 0)).kp2 ∧
    (tuned_settings rt ss).RollPI.Ki = (axis_gains (rt.Period 0) (rt.Gain 0)).ki2 ∧
    (tuned_settings rt ss).PitchRatePID.Kp = (axis_gains (rt.Period 1) (rt.Gain 1)).kp ∧
    (tuned_settings rt ss).PitchRatePID.Ki = (axis_gains (rt.Period 1) (rt.Gain 1)).ki ∧
    (tuned_settings rt ss).PitchPI.Kp = (axis_gains (rt.Period 1) (rt.Gain 1)).kp2 ∧
    (tuned_settings rt ss).PitchPI.Ki = (axis_gains (rt.Period 1) (rt.Gain 1)).ki2 := by
  refine ⟨?_, rfl, rfl, rfl, rfl, rfl, rfl, rfl, rfl⟩
  simp only [axis_gains, spec_axis_gains, ultimate_freq, AxisGains.mk.injEq]
  exact ⟨by ring, by ring, by ring, by ring⟩

/-- Claim C4 counterexample: at roll measurement period 500 ms and gain
0.3 the attitude-loop proportional gain the source computes is about
0.838, more than one half away from the claimed value 1.396. -/
theorem C4_counterexample :
    |(axis_gains 500 (3 / 10)).kp2 - 1396 / 1000| > 1 / 2 := by
  have h1 := Real.pi_gt_d6
  have h2 := Real.pi_lt_d6
  have hval : (axis_gains 500 (3 / 10)).kp2 = Real.pi * (4 / 15) := by
    simp only [axis_gains, ultimate_freq]
    ring
  rw [hval, abs_sub_comm, abs_of_pos (by nlinarith)]
  nlinarith

/-- Claim C4 amended: for the roll axis with measured period 500 ms and
gain 0.3 the source yields kp_rate about 1.415 (claimed correctly),
ki_rate exactly 160 / 81, about 1.975 (not 1.948), kp_att about 0.838
(not 1.396, since the outer crossover ratio is one fifth, not one third)
and ki_att about 0.140 (not 0.650). -/
theorem C4_amended_example :
    |(axis_gains 500 (3 / 10)).kp - 1415 / 1000| < 1 / 100 ∧
    (axis_gains 500 (3 / 10)).ki = 160 / 81 ∧
    |(axis_gains 500 (3 / 10)).kp2 - 838 / 1000| < 1 / 100 ∧
    |(axis_gains 500 (3 / 10)).ki2 - 140 / 1000| < 1 / 100 := by
  have h1 := Real.pi_gt_d6
  have h2 := Real.pi_lt_d6
  have hπ : Real.pi ≠ 0 := Real.pi_ne_zero
  have h9 : (0 : ℝ) < 9 * Real.pi := by positivity
  refine ⟨?_, ?_, ?_, ?_⟩
  · have hval : (axis_gains 500 (3 / 10)).kp = 40 / (9 * Real.pi) := by
      simp only [axis_gains, ultimate_freq]
      field_simp
      ring
    have key1 : (1405 / 1000 : ℝ) < 40 / (9 * Real.pi) := by
      rw [lt_div_iff₀ h9]
      nlinarith
    have key2 : 40 / (9 * Real.pi) < (1425 / 1000 : ℝ) := by
      rw [div_lt_iff₀ h9]
      nlinarith
    rw [hval, abs_lt]
    constructor <;> linarith
  · simp only [axis_gains, ultimate_freq]
    field_simp
    ring
  · have hval : (axis_gains 500 (3 / 10)).kp2 = Real.pi * (4 / 15) := by
      simp only [axis_gains, ultimate_freq]
      ring
    rw [hval, abs_lt]
    constructor <;> nlinarith
  · have hval : (axis_gains 500 (3 / 10)).ki2 = Real.pi ^ 2 * (16 / 1125) := by
      simp only [axis_gains, ultimate_freq]
      ring
    have hsq1 : Real.pi ^ 2 > 9.8696 := by nlinarith
    have hsq2 : Real.pi ^ 2 < 9.8697 := by nlinarith
    rw [hval, abs_lt]
    constructor <;> nlinarith

/-- Claim C10: the gain computation divides by the measured period and by
the measured relay gain with no guard: the commit path publishes the
computed settings for every measurement record, the zero-period zero-gain
one included, while the inner proportional gain genuinely inverts the
measured gain exactly when that gain is nonzero, the attitude
proportional gain genuinely inverts the period exactly when the period is
nonzero, and the ultimate-frequency quotient recovers the dividend
exactly when the period is nonzero. -/
theorem C10_division_precondition (rt : RelayTuningData)
    (rs : RelayTuningSettingsData) (ss : StabilizationSettingsData) :
    (rs.Behavior ≠ RelayTuningBehavior.MEASURE →
      (update_stabilization_settings rt rs ss).stabSettingsWrite =
        some (tuned_settings rt ss)) ∧
    (∀ period gain : ℝ,
      ((axis_gains period gain).kp ≠ 0 ↔ gain ≠ 0) ∧
      ((axis_gains period gain).kp2 ≠ 0 ↔ period ≠ 0) ∧
      (ultimate_freq period * period = 1000 * 2 * Real.pi ↔ period ≠ 0)) := by
  constructor
  · intro hb
    rcases rs with ⟨m, b⟩
    cases b
    · exact absurd rfl hb
    · simp [update_stabilization_settings]
    · simp [update_stabilization_settings]
  · intro period gain
    have hπ : Real.pi ≠ 0 := Real.pi_ne_zero
    have hpos : (0 : ℝ) < 1000 * 2 * Real.pi := by positivity
    refine ⟨?_, ?_, ?_⟩
    · simp only [axis_gains]
      constructor
      · intro hk hg
        rw [hg] at hk
        simp at hk
      · intro hg
        exact mul_ne_zero (div_ne_zero (div_ne_zero (by norm_num) hπ) hg)
          (by norm_num)
    · simp only [axis_gains, ultimate_freq]
      constructor
      · intro hk hp
        rw [hp] at hk
        simp at hk
      · intro hp
        exact mul_ne_zero (mul_ne_zero (div_ne_zero (by positivity) hp)
          (by norm_num)) (by norm_num)
    · unfold ultimate_freq
      constructor
      · intro h hp
        rw [hp] at h
        simp at h
        exact absurd h (by positivity)
      · intro hp
        exact div_mul_cancel₀ _ hp

/-- Witness for C10_division_precondition: at the degenerate all-zero
measurement and a COMPUTE configuration the commit path still publishes
the computed settings. -/
theorem C10_division_precondition_w :
    (update_stabilization_settings zeroRelayTuning
      ⟨RelayTuningMode.RATE, RelayTuningBehavior.COMPUTE⟩ zeroStabSettings).stabSettingsWrite =
      some (tuned_settings zeroRelayTuning zeroStabSettings) :=
  (C10_division_precondition zeroRelayTuning
    ⟨RelayTuningMode.RATE, RelayTuningBehavior.COMPUTE⟩ zeroStabSettings).1
    (by decide)

/-- Claim C1: on every tick whose flight-status read gives a flight mode
other than AUTOTUNE, the phase is forced to AT_INIT before any phase
logic runs, the whole phase logic of the tick is skipped (no record is
written and the entry timestamp is untouched), and the
StabilizationDesired output of the tick contains no relay-mode axis; this
holds from every phase. -/
theorem C1_gate_resets_and_skips (st : AUTOTUNE_STATE) (last : Nat)
    (inp : TickInput)
    (h : inp.flightStatus.FlightMode ≠ FlightMode.AUTOTUNE) :
    autotuneTick st last inp = ⟨AT_INIT, last, none, none, false⟩ ∧
    ∀ d ∈ (autotuneTick st last inp).stabDesiredWrite, noRelayAxis d := by
  constructor
  · simp [autotuneTick, h]
  · simp [autotuneTick, h]

/-- Witness for C1_gate_resets_and_skips: a concrete AT_ROLL tick in
MANUAL mode resets to AT_INIT and writes nothing. -/
theorem C1_gate_resets_and_skips_w :
    autotuneTick AT_ROLL 5 (mkInput 7 ArmedOption.ARMED FlightMode.MANUAL 1
      RelayTuningBehavior.COMPUTE) = ⟨AT_INIT, 5, none, none, false⟩ ∧
    ∀ d ∈ (autotuneTick AT_ROLL 5 (mkInput 7 ArmedOption.ARMED
      FlightMode.MANUAL 1 RelayTuningBehavior.COMPUTE)).stabDesiredWrite,
      noRelayAxis d :=
  C1_gate_resets_and_skips AT_ROLL 5 _ (by decide)

/-- Claim C2 amended: StabilizationSettings is published only by the
AT_SET phase, and AT_SET is entered only from AT_FINISHED on a tick where
the vehicle is disarmed with throttle at or below zero; the publication
itself happens one tick later, when the vehicle may have been re-armed,
so the disarm guard protects the entry into COMMIT, not the write. -/
theorem C2_amended_commit_gating (st : AUTOTUNE_STATE) (last : Nat)
    (inp : TickInput) :
    ((autotuneTick st last inp).stabSettingsWrite ≠ none →
      st = AT_SET ∧ inp.flightStatus.FlightMode = FlightMode.AUTOTUNE) ∧
    ((autotuneTick st last inp).state = AT_SET →
      st = AT_FINISHED ∧ inp.flightStatus.FlightMode = FlightMode.AUTOTUNE ∧
      inp.flightStatus.Armed = ArmedOption.DISARMED ∧
      inp.manualControl.Throttle ≤ 0) := by
  by_cases h : inp.flightStatus.FlightMode = FlightMode.AUTOTUNE
  · cases st <;>
      simp only [autotuneTick, phaseStep, h, ne_eq, not_true_eq_false,
        ite_false, if_false, Bool.false_eq_true] <;>
      (try split_ifs with hc) <;>
      simp_all [baseStabDesired]
  · simp [autotuneTick, h]

/-- Witness for C2_amended_commit_gating: the concrete disarmed
zero-throttle AT_FINISHED tick that enters AT_SET satisfies the stated
entry conditions. -/
theorem C2_amended_commit_gating_w :
    AT_FINISHED = AT_FINISHED ∧
    (mkInput 0 ArmedOption.DISARMED FlightMode.AUTOTUNE 0
      RelayTuningBehavior.COMPUTE).flightStatus.FlightMode = FlightMode.AUTOTUNE ∧
    (mkInput 0 ArmedOption.DISARMED FlightMode.AUTOTUNE 0
      RelayTuningBehavior.COMPUTE).flightStatus.Armed = ArmedOption.DISARMED ∧
    (mkInput 0 ArmedOption.DISARMED FlightMode.AUTOTUNE 0
      RelayTuningBehavior.COMPUTE).manualControl.Throttle ≤ 0 :=
  (C2_amended_commit_gating AT_FINISHED 0 (mkInput 0 ArmedOption.DISARMED
    FlightMode.AUTOTUNE 0 RelayTuningBehavior.COMPUTE)).2
    (by norm_num [autotuneTick, phaseStep, mkInput, baseStabDesired])

/-- Claim C2 counterexample: the settings publication can happen while the
vehicle is armed with positive throttle.  A disarmed zero-throttle
AT_FINISHED tick enters AT_SET; if the vehicle is re-armed with full
throttle before the next tick, that next tick, still in AUTOTUNE mode
with behavior COMPUTE, publishes StabilizationSettings while armed with
positive throttle. -/
theorem C2_counterexample :
    (autotuneTick AT_FINISHED 0 (mkInput 0 ArmedOption.DISARMED
      FlightMode.AUTOTUNE 0 RelayTuningBehavior.COMPUTE)).state = AT_SET ∧
    (mkInput 1 ArmedOption.ARMED FlightMode.AUTOTUNE 1
      RelayTuningBehavior.COMPUTE).flightStatus.Armed = ArmedOption.ARMED ∧
    (mkInput 1 ArmedOption.ARMED FlightMode.AUTOTUNE 1
      RelayTuningBehavior.COMPUTE).manualControl.Throttle > 0 ∧
    (autotuneTick AT_SET 0 (mkInput 1 ArmedOption.ARMED FlightMode.AUTOTUNE 1
      RelayTuningBehavior.COMPUTE)).stabSettingsWrite ≠ none := by
  refine ⟨?_, rfl, by norm_num [mkInput], ?_⟩
  · norm_num [autotuneTick, phaseStep, mkInput, baseStabDesired]
  · norm_num [autotuneTick, phaseStep, mkInput, update_stabilization_settings]
    exact Option.some_ne_none _

/-- Claim C6: from every phase one tick moves to the same phase, to its
forward successor along the cycle AT_INIT, AT_START, AT_ROLL, AT_PITCH,
AT_FINISHED, AT_SET, AT_INIT, or — only through the flight-mode gate — to
AT_INIT; a gate-failing tick always lands in AT_INIT; a gate-passing
AT_SET tick returns unconditionally to AT_INIT; and every phase has a
tick input taking it to its forward successor, so no phase is terminal. -/
theorem C6_phase_transitions (st : AUTOTUNE_STATE) (last : Nat)
    (inp : TickInput) :
    ((autotuneTick st last inp).state = st ∨
     (autotuneTick st last inp).state = nextPhase st ∨
     (autotuneTick st last inp).state = AT_INIT) ∧
    (inp.flightStatus.FlightMode ≠ FlightMode.AUTOTUNE →
      (autotuneTick st last inp).state = AT_INIT) ∧
    (inp.flightStatus.FlightMode = FlightMode.AUTOTUNE → st = AT_SET →
      (autotuneTick st last inp).state = AT_INIT) ∧
    (∀ s : AUTOTUNE_STATE, ∃ l2 inp2,
      (autotuneTick s l2 inp2).state = nextPhase s) := by
  refine ⟨?_, ?_, ?_, ?_⟩
  · by_cases h : inp.flightStatus.FlightMode = FlightMode.AUTOTUNE
    · cases st <;>
        simp only [autotuneTick, phaseStep, h, ne_eq, not_true_eq_false,
          ite_false, if_false] <;>
        (try split_ifs) <;>
        simp [nextPhase]
    · simp [autotuneTick, h]
  · intro h
    simp [autotuneTick, h]
  · intro h hst
    subst hst
    simp [autotuneTick, phaseStep, h]
  · intro s
    cases s
    · exact ⟨0, mkInput 0 ArmedOption.ARMED FlightMode.AUTOTUNE 1
        RelayTuningBehavior.COMPUTE,
        by norm_num [autotuneTick, phaseStep, mkInput, baseStabDesired, nextPhase]⟩
    · exact ⟨0, mkInput 99999 ArmedOption.ARMED FlightMode.AUTOTUNE 1
        RelayTuningBehavior.COMPUTE,
        by norm_num [autotuneTick, phaseStep, mkInput, nextPhase, PREPARE_TIME]⟩
    · exact ⟨0, mkInput 99999 ArmedOption.ARMED FlightMode.AUTOTUNE 1
        RelayTuningBehavior.COMPUTE,
        by norm_num [autotuneTick, phaseStep, mkInput, nextPhase, MEAURE_TIME]⟩
    · exact ⟨0, mkInput 99999 ArmedOption.ARMED FlightMode.AUTOTUNE 1
        RelayTuningBehavior.COMPUTE,
        by norm_num [autotuneTick, phaseStep, mkInput, nextPhase, MEAURE_TIME]⟩
    · exact ⟨0, mkInput 0 ArmedOption.DISARMED FlightMode.AUTOTUNE 0
        RelayTuningBehavior.COMPUTE,
        by norm_num [autotuneTick, phaseStep, mkInput, baseStabDesired, nextPhase]⟩
    · exact ⟨0, mkInput 0 ArmedOption.DISARMED FlightMode.AUTOTUNE 0
        RelayTuningBehavior.COMPUTE,
        by norm_num [autotuneTick, phaseStep, mkInput, nextPhase]⟩

/-- Witness for C6_phase_transitions: a concrete AT_ROLL tick in MANUAL
mode is reset to AT_INIT by the gate. -/
theorem C6_phase_transitions_w :
    (autotuneTick AT_ROLL 0 (mkInput 7 ArmedOption.ARMED FlightMode.MANUAL 1
      RelayTuningBehavior.COMPUTE)).state = AT_INIT :=
  (C6_phase_transitions AT_ROLL 0 (mkInput 7 ArmedOption.ARMED
    FlightMode.MANUAL 1 RelayTuningBehavior.COMPUTE)).2.1 (by decide)

/-- Claim C7 amended: in AUTOTUNE mode the machine leaves AT_START for
AT_ROLL exactly when the elapsed time since the phase entry is strictly
greater than PREPARE_TIME — at exactly PREPARE_TIME it stays — and
likewise AT_ROLL and AT_PITCH advance exactly when the elapsed time is
strictly greater than MEAURE_TIME; transitions never occur at or before
the threshold. -/
theorem C7_amended_timing (st : AUTOTUNE_STATE) (last : Nat)
    (inp : TickInput)
    (hm : inp.flightStatus.FlightMode = FlightMode.AUTOTUNE) :
    (st = AT_START → ((autotuneTick st last inp).state = AT_ROLL ↔
      inp.now - last > PREPARE_TIME)) ∧
    (st = AT_ROLL → ((autotuneTick st last inp).state = AT_PITCH ↔
      inp.now - last > MEAURE_TIME)) ∧
    (st = AT_PITCH → ((autotuneTick st last inp).state = AT_FINISHED ↔
      inp.now - last > MEAURE_TIME)) := by
  refine ⟨?_, ?_, ?_⟩ <;> rintro rfl <;>
    simp only [autotuneTick, phaseStep, hm, ne_eq, not_true_eq_false,
      ite_false, if_false] <;>
    split_ifs with hd <;> simp [hd]

/-- Witness for C7_amended_timing: one millisecond past the threshold a
concrete AT_START tick advances to AT_ROLL. -/
theorem C7_amended_timing_w :
    (autotuneTick AT_START 0 (mkInput 2001 ArmedOption.ARMED
      FlightMode.AUTOTUNE 1 RelayTuningBehavior.COMPUTE)).state = AT_ROLL :=
  ((C7_amended_timing AT_START 0 (mkInput 2001 ArmedOption.ARMED
    FlightMode.AUTOTUNE 1 RelayTuningBehavior.COMPUTE) rfl).1 rfl).mpr
    (by decide)

/-- Claim C7 counterexample: with elapsed time exactly PREPARE_TIME
(2000 ms) since entering AT_START, the machine does not leave for
AT_ROLL, because the source compares with a strict greater-than; so the
transition does not occur as soon as elapsed time is at least the
threshold. -/
theorem C7_counterexample :
    (mkInput 2000 ArmedOption.ARMED FlightMode.AUTOTUNE 1
      RelayTuningBehavior.COMPUTE).now - 0 ≥ PREPARE_TIME ∧
    (autotuneTick AT_START 0 (mkInput 2000 ArmedOption.ARMED
      FlightMode.AUTOTUNE 1 RelayTuningBehavior.COMPUTE)).state = AT_START ∧
    (autotuneTick AT_START 0 (mkInput 2000 ArmedOption.ARMED
      FlightMode.AUTOTUNE 1 RelayTuningBehavior.COMPUTE)).state ≠ AT_ROLL := by
  refine ⟨by decide, ?_, ?_⟩
  · norm_num [autotuneTick, phaseStep, mkInput, PREPARE_TIME]
  · norm_num [autotuneTick, phaseStep, mkInput, PREPARE_TIME]
    decide

/-- Every StabilizationDesired record a tick writes carries yaw mode RATE
and the manual yaw passthrough value, in every phase: the yaw fields are
set once before the phase switch and no phase branch touches them. -/
theorem stabDesiredWrite_yaw (st : AUTOTUNE_STATE) (last : Nat)
    (inp : TickInput) (d : StabilizationDesiredData)
    (hd : (autotuneTick st last inp).stabDesiredWrite = some d) :
    d.YawMode = StabMode.RATE ∧
    d.Yaw = inp.manualControl.Yaw * inp.stabSettings.ManualRateYaw := by
  by_cases h : inp.flightStatus.FlightMode = FlightMode.AUTOTUNE
  · cases st <;>
      simp only [autotuneTick, phaseStep, h, ne_eq, not_true_eq_false,
        ite_false, if_false] at hd <;>
      (try split_ifs at hd) <;>
      simp only [Option.some.injEq] at hd <;>
      subst hd <;>
      simp [baseStabDesired]
  · simp [autotuneTick, h] at hd

/-- A tick writes a StabilizationDesired record exactly when its flight
mode read gives AUTOTUNE; a gate-failing tick writes none. -/
theorem stabDesiredWrite_isSome (st : AUTOTUNE_STATE) (last : Nat)
    (inp : TickInput) :
    ((autotuneTick st last inp).stabDesiredWrite ≠ none ↔
      inp.flightStatus.FlightMode = FlightMode.AUTOTUNE) := by
  by_cases h : inp.flightStatus.FlightMode = FlightMode.AUTOTUNE
  · cases st <;>
      simp only [autotuneTick, phaseStep, h, ne_eq, not_true_eq_false,
        ite_false, if_false] <;>
      (try split_ifs) <;>
      simp [h]
  · simp [autotuneTick, h]

/-- Claim C8: in every phase the written StabilizationDesired record has
yaw mode RATE and yaw value equal to the manual yaw input scaled by the
manual yaw rate setting, and for identical tick inputs the yaw mode and
value are identical across all phases: no tuning phase overrides the yaw
axis. -/
theorem C8_yaw_invariant (st : AUTOTUNE_STATE) (last : Nat)
    (inp : TickInput) :
    (∀ d ∈ (autotuneTick st last inp).stabDesiredWrite,
      d.YawMode = StabMode.RATE ∧
      d.Yaw = inp.manualControl.Yaw * inp.stabSettings.ManualRateYaw) ∧
    (∀ st2 last2 d d2,
      (autotuneTick st last inp).stabDesiredWrite = some d →
      (autotuneTick st2 last2 inp).stabDesiredWrite = some d2 →
      d.YawMode = d2.YawMode ∧ d.Yaw = d2.Yaw) := by
  constructor
  · intro d hd
    rw [Option.mem_def] at hd
    exact stabDesiredWrite_yaw st last inp d hd
  · intro st2 last2 d d2 hd hd2
    obtain ⟨h1, h2⟩ := stabDesiredWrite_yaw st last inp d hd
    obtain ⟨h3, h4⟩ := stabDesiredWrite_yaw st2 last2 inp d2 hd2
    exact ⟨h1.trans h3.symm, h2.trans h4.symm⟩

/-- Witness for C8_yaw_invariant: the record written by a concrete
AT_START tick has yaw mode RATE and the scaled manual yaw value. -/
theorem C8_yaw_invariant_w :
    (baseStabDesired (mkInput 0 ArmedOption.ARMED FlightMode.AUTOTUNE 1
      RelayTuningBehavior.COMPUTE)).YawMode = StabMode.RATE ∧
    (baseStabDesired (mkInput 0 ArmedOption.ARMED FlightMode.AUTOTUNE 1
      RelayTuningBehavior.COMPUTE)).Yaw =
      (mkInput 0 ArmedOption.ARMED FlightMode.AUTOTUNE 1
        RelayTuningBehavior.COMPUTE).manualControl.Yaw *
      (mkInput 0 ArmedOption.ARMED FlightMode.AUTOTUNE 1
        RelayTuningBehavior.COMPUTE).stabSettings.ManualRateYaw :=
  (C8_yaw_invariant AT_START 0 (mkInput 0 ArmedOption.ARMED
    FlightMode.AUTOTUNE 1 RelayTuningBehavior.COMPUTE)).1
    (baseStabDesired (mkInput 0 ArmedOption.ARMED FlightMode.AUTOTUNE 1
      RelayTuningBehavior.COMPUTE))
    (by norm_num [autotuneTick, phaseStep, mkInput, Option.mem_def,
      PREPARE_TIME])

/-- Claim C9 counterexample: StabilizationDesired is not written on every
tick: a tick whose flight-status read gives MANUAL mode performs only the
flight-status read and writes nothing, so its trace holds zero
StabilizationDesired writes and the tick result carries no written
record. -/
theorem C9_counterexample :
    (tickTrace AT_START (mkInput 0 ArmedOption.ARMED FlightMode.MANUAL 1
      RelayTuningBehavior.COMPUTE)).count Ev.writeStabDesired = 0 ∧
    (autotuneTick AT_START 0 (mkInput 0 ArmedOption.ARMED FlightMode.MANUAL
      1 RelayTuningBehavior.COMPUTE)).stabDesiredWrite = none := by
  constructor
  · decide
  · simp [autotuneTick, mkInput]

/-- Claim C9 amended: every tick writes StabilizationDesired at most
once; it is written exactly once on the ticks whose flight-mode read
gives AUTOTUNE — on a gate-failing tick nothing is written — and the
write always happens strictly after every read of that tick. -/
theorem C9_amended_write_discipline (st : AUTOTUNE_STATE) (inp : TickInput) :
    (tickTrace st inp).count Ev.writeStabDesired ≤ 1 ∧
    (inp.flightStatus.FlightMode = FlightMode.AUTOTUNE →
      (tickTrace st inp).count Ev.writeStabDesired = 1) ∧
    writeAfterAllReads (tickTrace st inp) ∧
    (∀ last, (autotuneTick st last inp).stabDesiredWrite ≠ none ↔
      inp.flightStatus.FlightMode = FlightMode.AUTOTUNE) := by
  refine ⟨?_, ?_, ?_, fun last => stabDesiredWrite_isSome st last inp⟩
  · by_cases h : inp.flightStatus.FlightMode = FlightMode.AUTOTUNE
    · by_cases hs : st = AT_SET
      · subst hs
        cases hb : inp.relaySettings.Behavior <;>
          simp [tickTrace, commitTrace, h, hb]
      · simp [tickTrace, h, hs]
    · simp [tickTrace, h]
  · intro h
    by_cases hs : st = AT_SET
    · subst hs
      cases hb : inp.relaySettings.Behavior <;>
        simp [tickTrace, commitTrace, h, hb]
    · simp [tickTrace, h, hs]
  · unfold writeAfterAllReads
    by_cases h : inp.flightStatus.FlightMode = FlightMode.AUTOTUNE
    · by_cases hs : st = AT_SET
      · subst hs
        cases hb : inp.relaySettings.Behavior
        · rw [show tickTrace AT_SET inp =
            [Ev.readFlightStatus, Ev.readStabDesired, Ev.readStabSettings,
             Ev.readManualSettings, Ev.readManualControl, Ev.readRelaySettings,
             Ev.readRelayTuning, Ev.readRelaySettings, Ev.readStabSettings,
             Ev.writeStabDesired] from by simp [tickTrace, commitTrace, h, hb]]
          decide
        · rw [show tickTrace AT_SET inp =
            [Ev.readFlightStatus, Ev.readStabDesired, Ev.readStabSettings,
             Ev.readManualSettings, Ev.readManualControl, Ev.readRelaySettings,
             Ev.readRelayTuning, Ev.readRelaySettings, Ev.readStabSettings,
             Ev.writeStabSettings, Ev.writeStabDesired] from by
              simp [tickTrace, commitTrace, h, hb]]
          decide
        · rw [show tickTrace AT_SET inp =
            [Ev.readFlightStatus, Ev.readStabDesired, Ev.readStabSettings,
             Ev.readManualSettings, Ev.readManualControl, Ev.readRelaySettings,
             Ev.readRelayTuning, Ev.readRelaySettings, Ev.readStabSettings,
             Ev.writeStabSettings, Ev.saveStabSettings, Ev.writeStabDesired]
            from by simp [tickTrace, commitTrace, h, hb]]
          decide
      · rw [show tickTrace st inp =
          [Ev.readFlightStatus, Ev.readStabDesired, Ev.readStabSettings,
           Ev.readManualSettings, Ev.readManualControl, Ev.readRelaySettings,
           Ev.writeStabDesired] from by simp [tickTrace, h, hs]]
        decide
    · rw [show tickTrace st inp = [Ev.readFlightStatus] from by
        simp [tickTrace, h]]
      decide

/-- Witness for C9_amended_write_discipline: a concrete AUTOTUNE-mode
AT_START tick writes StabilizationDesired exactly once. -/
theorem C9_amended_write_discipline_w :
    (tickTrace AT_START (mkInput 0 ArmedOption.ARMED FlightMode.AUTOTUNE 1
      RelayTuningBehavior.COMPUTE)).count Ev.writeStabDesired = 1 :=
  (C9_amended_write_discipline AT_START (mkInput 0 ArmedOption.ARMED
    FlightMode.AUTOTUNE 1 RelayTuningBehavior.COMPUTE)).2.1 rfl

end Autotune
